import Mathlib

/-!
Verification development for the quantitative analysis engine in
`quantitative_analyzer.py` (class `QuantitativeAnalyzer`).

Shallow embedding conventions:
* Python floats are modelled as exact rationals (`ℚ`); no claim under
  consideration depends on rounding, so exact arithmetic is faithful to the
  branch structure of the source.
* pandas cells that may be NaN are modelled as `Option ℚ` (`none` = NaN);
  `.fillna(0)` becomes `Option.getD 0`, while a `Series.get(label, default)`
  read of an always-present column returns the cell unchanged (NaN included)
  since the default applies only to an absent label; Python truthiness of
  such a cell is `pyTruthy` (NaN truthy, 0 falsy) and NaN propagates through
  arithmetic (`pyAdd`, `pyAvg`).
* Python dictionaries with a fixed key set become structures with `Option`
  fields (`none` = key absent or value `None`).
* Exceptions raised by the external data provider (yfinance) are modelled by
  explicit flags / `Option` results on the provider data; the try/except
  blocks of the analyzer itself become the corresponding case splits.
* `datetime.now()` is modelled as an explicit clock input: a timestamp string
  (written into `analysis_timestamp`) and an epoch-day integer `today`
  (used for the options-expiration filter).
-/

namespace QuantAnalyzer

/-- One OHLCV bar of the historical series (only the columns the analyzer
reads: High, Low, Close). -/
structure Bar where
  high : ℚ
  low : ℚ
  close : ℚ
deriving DecidableEq, Repr

/-- One row of an option chain: the columns read by `_analyze_options_chain`.
A yfinance chain always carries these columns, but any cell may be NaN,
modelled as `none`; `some q` is a numeric cell. -/
structure OptionRow where
  strike : ℚ
  volume : Option ℚ
  openInterest : Option ℚ
  impliedVolatility : Option ℚ
deriving DecidableEq, Repr

/-- The pair of call/put tables returned by `ticker.option_chain(exp)`. -/
structure OptionChain where
  calls : List OptionRow
  puts : List OptionRow
deriving DecidableEq, Repr

/-- One entry of `ticker.options` together with the chain the provider would
return for it.  `expDay` is the expiration date as an epoch day; `chain = none`
models `ticker.option_chain(exp)` raising an exception. -/
structure Expiry where
  expDay : Int
  chain : Option OptionChain
deriving DecidableEq, Repr

/-- Relevant keys of `ticker.info` (`forwardPE`, `priceToBook`,
`dividendYield`), each possibly absent / `None`. -/
structure FundRaw where
  forwardPE : Option ℚ
  priceToBook : Option ℚ
  dividendYield : Option ℚ
deriving DecidableEq, Repr

/-- The provider responses consumed by one `get_quant_analysis` call.
`raises = true` models a yfinance exception during `_fetch_market_data`;
`recent` is the Close column of `ticker.history(period="2d")`;
`historical` is `ticker.history(period=historical_period)`;
`info` is `ticker.info`; `expiries` is `ticker.options` with chains. -/
structure ProviderData where
  raises : Bool
  recent : List ℚ
  historical : List Bar
  info : FundRaw
  expiries : List Expiry
deriving DecidableEq, Repr

/-! ## Options chain analysis (`_analyze_options_chain`, lines 306-442) -/

/-- Result record of `_analyze_options_chain`.  The Python function returns a
dict; the fields below are exactly the keys it may carry.  For `call_iv` and
`put_iv`, `none` covers both an absent key and the stored `None` that
lines 377-378 write for a NaN cell; for the ATM totals, `none` covers an
absent key and a stored NaN.  `greeks_sigma` records the volatility passed to
the py_vollib Greek calls (lines 383-395): the outer `Option` is key
presence (the Greeks block is only reached when both ATM rows exist), the
inner value is the float sigma, `none` being NaN.  The Greek values
themselves are external library output fully determined by (spot, strike,
time, rate, sigma), so recording sigma is the faithful abstraction of that
block. -/
structure OptionsMetricSet where
  options_data_available : Bool
  nearest_expiry : Option Int := none
  atm_strike : Option ℚ := none
  call_iv : Option ℚ := none
  put_iv : Option ℚ := none
  greeks_sigma : Option (Option ℚ) := none
  put_call_volume_ratio : Option ℚ := none
  put_call_oi_ratio : Option ℚ := none
  atm_total_volume : Option ℚ := none
  atm_total_oi : Option ℚ := none
deriving DecidableEq, Repr

/-- The record with only options_data_available = False, returned on every failure
path of `_analyze_options_chain`. -/
def OptionsMetricSet.unavailable : OptionsMetricSet :=
  { options_data_available := false }

/-- First-occurrence deduplication, modelling `pandas.unique` on the
concatenated strike columns (line 361): keeps the first occurrence of each
value, in encounter order. -/
def uniqueFirst : List ℚ → List ℚ
  | [] => []
  | x :: xs => x :: uniqueFirst (xs.filter (fun y => y ≠ x))
termination_by l => l.length
decreasing_by
  simp only [List.length_cons]
  exact Nat.lt_succ_of_le (List.length_filter_le _ xs)

/-- `all_strikes` (line 361): union of call and put strikes in iteration
order, deduplicated. -/
def allStrikes (chain : OptionChain) : List ℚ :=
  uniqueFirst (chain.calls.map OptionRow.strike ++ chain.puts.map OptionRow.strike)

/-- `np.argmin(np.abs(all_strikes - current_price))` followed by indexing
(line 362): the element minimizing the absolute distance to `price`, the
first such element on ties; `none` on the empty list (where numpy raises). -/
def argminAbs (price : ℚ) : List ℚ → Option ℚ
  | [] => none
  | x :: xs => some (xs.foldl (fun best s => if |s - price| < |best - price| then s else best) x)

/-- The ATM strike selected for a chain at a given price. -/
def atmStrikeOf (price : ℚ) (chain : OptionChain) : Option ℚ :=
  argminAbs price (allStrikes chain)

/-- Row selection by strike equality followed by taking the first row
(lines 366-371): the first row at the given strike, if any. -/
def findRow (rows : List OptionRow) (strike : ℚ) : Option OptionRow :=
  rows.find? (fun r => r.strike = strike)

/-- Reading impliedVolatility with default 0 (line 374): `Series.get`
applies its default only to an absent label, and a yfinance chain always
carries the impliedVolatility column, so the read returns the cell itself —
a NaN cell stays NaN (`none`), it is not replaced by 0.  The reporting of
lines 377-378 (`float(v)` unless `pd.isna(v)`, else `None`) is then the
identity on this representation: NaN maps to `none`, a number to itself. -/
def ivRead (r : OptionRow) : Option ℚ :=
  r.impliedVolatility

/-- Python truthiness of a float cell: 0 is falsy, every other float —
including NaN — is truthy. -/
def pyTruthy : Option ℚ → Bool
  | none => true
  | some q => q ≠ 0

/-- NaN-propagating sum of two float cells, as in the ATM totals of
lines 422-431 where `Series.get` keeps NaN cells. -/
def pyAdd : Option ℚ → Option ℚ → Option ℚ
  | some a, some b => some (a + b)
  | _, _ => none

/-- NaN-propagating average `(a + b) / 2` of two float cells. -/
def pyAvg : Option ℚ → Option ℚ → Option ℚ
  | some a, some b => some ((a + b) / 2)
  | _, _ => none

/-- Line 383: `sigma = (call_iv + put_iv) / 2 if call_iv and put_iv else 0.25`.
A NaN implied volatility is truthy in Python, so it does not trigger the
0.25 fallback — it propagates NaN into the average; the fallback fires
exactly when either side is zero. -/
def greeksSigma (civ piv : Option ℚ) : Option ℚ :=
  if pyTruthy civ && pyTruthy piv then pyAvg civ piv else some (1/4)

/-- Sum of the volume column with NaN filled as 0 (lines 412-413). -/
def totalVolume (rows : List OptionRow) : ℚ :=
  (rows.map (fun r => r.volume.getD 0)).sum

/-- Sum of the openInterest column with NaN filled as 0 (lines 414-415). -/
def totalOI (rows : List OptionRow) : ℚ :=
  (rows.map (fun r => r.openInterest.getD 0)).sum

/-- Lines 418-419: `put / call if call > 0 else 0`. -/
def pcRatio (put call : ℚ) : ℚ :=
  if call > 0 then put / call else 0

/-- The body of the inner `try` of `_analyze_options_chain`
(lines 355-436) once the chain for the nearest expiration has been fetched.
Returns `none` where the Python code would raise inside the inner `try`
(numpy `argmin` on an empty strike array), which the caller turns into the
`unavailable` record. -/
def analyzeChainData (price : ℚ) (nearestDay : Int) (chain : OptionChain) :
    Option OptionsMetricSet :=
  match atmStrikeOf price chain with
  | none => none
  | some atm =>
    let base : OptionsMetricSet :=
      { options_data_available := true
        nearest_expiry := some nearestDay
        atm_strike := some atm }
    match findRow chain.calls atm, findRow chain.puts atm with
    | some callRow, some putRow =>
      let civ := ivRead callRow
      let piv := ivRead putRow
      let sigma := greeksSigma civ piv
      let tcv := totalVolume chain.calls
      let tpv := totalVolume chain.puts
      let tco := totalOI chain.calls
      let tpo := totalOI chain.puts
      some { base with
        call_iv := civ
        put_iv := piv
        greeks_sigma := some sigma
        put_call_volume_ratio := some (pcRatio tpv tcv)
        put_call_oi_ratio := some (pcRatio tpo tco)
        atm_total_volume := pyAdd callRow.volume putRow.volume
        atm_total_oi := pyAdd callRow.openInterest putRow.openInterest }
    | _, _ => some base

/-- Stable insertion of an expiry into a list sorted by days-to-expiry,
used to model Python `list.sort(key=lambda x: x[1])` (line 342). -/
def insertByDay (today : Int) (e : Expiry) : List Expiry → List Expiry
  | [] => [e]
  | f :: fs =>
    if e.expDay - today ≤ f.expDay - today then e :: f :: fs
    else f :: insertByDay today e fs

/-- Stable sort by days-to-expiry (line 342). -/
def sortByDay (today : Int) : List Expiry → List Expiry
  | [] => []
  | e :: es => insertByDay today e (sortByDay today es)

/-- Lines 328-335: keep expirations with `1 ≤ days_to_expiry ≤ 365`. -/
def validExpiries (today : Int) (exps : List Expiry) : List Expiry :=
  exps.filter (fun e => 1 ≤ e.expDay - today ∧ e.expDay - today ≤ 365)

/-- `_analyze_options_chain` (lines 306-442).  Every failure path — no
expirations, none in the valid window, a chain-fetch exception, or an
exception inside the inner `try` — returns the `unavailable` record; the
function never returns `None` or an empty dict. -/
def analyzeOptionsChain (today : Int) (exps : List Expiry) (price : ℚ) :
    OptionsMetricSet :=
  match sortByDay today (validExpiries today exps) with
  | [] => .unavailable
  | nearest :: _ =>
    match nearest.chain with
    | none => .unavailable
    | some chain =>
      match analyzeChainData price (nearest.expDay - today) chain with
      | none => .unavailable
      | some m => m

/-! ## Technical indicators (`_calculate_technical_indicators`, lines 191-261)

The source delegates the indicator arithmetic to the external pandas-ta
library (`df.ta.sma`, `df.ta.rsi`, `df.ta.macd`, `df.ta.bbands`, `df.ta.atr`).
The definitions below model those library calls by their standard
definitions (trailing simple moving average, Wilder-smoothed RSI/ATR,
SMA-seeded EMAs for MACD); each returns `none` exactly when the library
would leave NaN in the last row (insufficient window).  The Bollinger upper
and lower bands are omitted from the embedding: they require a real square
root (irrational), and no claim references them; since they are computable
exactly when the 20-bar middle band is, their omission does not affect any
presence or emptiness check below. -/

/-- Close column of the historical DataFrame. -/
def closesOf (bars : List Bar) : List ℚ :=
  bars.map Bar.close

/-- Trailing simple moving average over the last `n` values, `none` when
fewer than `n` values exist (NaN in the last row). -/
def smaAt (n : Nat) (xs : List ℚ) : Option ℚ :=
  if xs.length < n ∨ n = 0 then none
  else some ((xs.drop (xs.length - n)).sum / n)

/-- Wilder smoothing: `acc := (acc * (n-1) + x) / n` folded over the tail. -/
def wilderSmooth (n : ℚ) (seed : ℚ) (rest : List ℚ) : ℚ :=
  rest.foldl (fun acc x => (acc * (n - 1) + x) / n) seed

/-- Successive differences of a series. -/
def diffsOf : List ℚ → List ℚ
  | [] => []
  | [_] => []
  | a :: b :: xs => (b - a) :: diffsOf (b :: xs)

/-- Wilder RSI of length `n` at the last row; `none` when the window does not
fit or the series has no net movement (0/0 in the library). -/
def rsiAt (n : Nat) (xs : List ℚ) : Option ℚ :=
  let d := diffsOf xs
  if d.length < n ∨ n = 0 then none
  else
    let gains := d.map (fun v => max v 0)
    let losses := d.map (fun v => max (-v) 0)
    let avgGain := wilderSmooth n ((gains.take n).sum / n) (gains.drop n)
    let avgLoss := wilderSmooth n ((losses.take n).sum / n) (losses.drop n)
    if avgGain + avgLoss = 0 then none
    else some (100 * avgGain / (avgGain + avgLoss))

/-- Running EMA values with smoothing factor `k` from a given seed. -/
def emaSteps (k : ℚ) (acc : ℚ) : List ℚ → List ℚ
  | [] => []
  | x :: xs =>
    let a := acc + (x - acc) * k
    a :: emaSteps k a xs

/-- SMA-seeded EMA series of period `n`: values from index `n-1` onward,
empty when the window does not fit. -/
def emaSeries (n : Nat) (xs : List ℚ) : List ℚ :=
  if xs.length < n ∨ n = 0 then []
  else
    let seed := (xs.take n).sum / n
    seed :: emaSteps (2 / ((n : ℚ) + 1)) seed (xs.drop n)

/-- MACD line series (EMA12 − EMA26), aligned from the first index where both
EMAs exist. -/
def macdLineOf (xs : List ℚ) : List ℚ :=
  (((emaSeries 12 xs).drop 14).zip (emaSeries 26 xs)).map (fun p => p.1 - p.2)

/-- MACD line value at the last row. -/
def macdAt (xs : List ℚ) : Option ℚ :=
  (macdLineOf xs).getLast?

/-- MACD signal line (EMA9 of the MACD line) at the last row. -/
def macdSignalAt (xs : List ℚ) : Option ℚ :=
  (emaSeries 9 (macdLineOf xs)).getLast?

/-- MACD histogram (line − signal) at the last row. -/
def macdHistAt (xs : List ℚ) : Option ℚ :=
  match macdAt xs, macdSignalAt xs with
  | some m, some s => some (m - s)
  | _, _ => none

/-- True-range tail given the previous bar. -/
def trAux (prev : Bar) : List Bar → List ℚ
  | [] => []
  | b :: bs =>
    max (b.high - b.low) (max |b.high - prev.close| |b.low - prev.close|) :: trAux b bs

/-- True-range series: first bar uses high − low, later bars the Wilder true
range against the previous close. -/
def trueRanges : List Bar → List ℚ
  | [] => []
  | b :: bs => (b.high - b.low) :: trAux b bs

/-- Wilder ATR of length `n` at the last row. -/
def atrAt (n : Nat) (bars : List Bar) : Option ℚ :=
  let trs := trueRanges bars
  if trs.length < n ∨ n = 0 then none
  else some (wilderSmooth n ((trs.take n).sum / n) (trs.drop n))

/-- The indicator dict assembled in lines 220-255; absent keys are `none`
(NaN values are never copied into the dict). -/
structure TechIndicators where
  sma_50 : Option ℚ := none
  sma_200 : Option ℚ := none
  rsi_14 : Option ℚ := none
  macd : Option ℚ := none
  macd_signal : Option ℚ := none
  macd_histogram : Option ℚ := none
  bb_middle : Option ℚ := none
  atr_14 : Option ℚ := none
deriving DecidableEq, Repr

/-- The empty indicator dict `{}`. -/
def TechIndicators.empty : TechIndicators := {}

/-- `_calculate_technical_indicators` (lines 191-261): `None` when fewer than
50 bars exist (line 202-204), otherwise the assembled dict, or `None` again
when that dict would be empty (line 257). -/
def calcTechnicalIndicators (bars : List Bar) : Option TechIndicators :=
  if bars.length < 50 then none
  else
    let cs := closesOf bars
    let t : TechIndicators :=
      { sma_50 := smaAt 50 cs
        sma_200 := smaAt 200 cs
        rsi_14 := rsiAt 14 cs
        macd := macdAt cs
        macd_signal := macdSignalAt cs
        macd_histogram := macdHistAt cs
        bb_middle := smaAt 20 cs
        atr_14 := atrAt 14 bars }
    if t = .empty then none else some t

/-! ## Fundamental metrics (`_get_fundamental_metrics`, lines 263-304) -/

/-- Result of `_get_fundamental_metrics`: three keys always present, each a
validated value or `None`. -/
structure FundMetrics where
  forward_pe : Option ℚ := none
  price_to_book : Option ℚ := none
  dividend_yield : Option ℚ := none
deriving DecidableEq, Repr

/-- `_get_fundamental_metrics` (lines 263-304): range-validates each field,
replacing out-of-range or missing values by `None`. -/
def getFundamentalMetrics (info : FundRaw) : FundMetrics :=
  { forward_pe :=
      match info.forwardPE with
      | some v => if 0 < v ∧ v ≤ 1000 then some v else none
      | none => none
    price_to_book :=
      match info.priceToBook with
      | some v => if 0 < v ∧ v ≤ 100 then some v else none
      | none => none
    dividend_yield :=
      match info.dividendYield with
      | some v => if 0 ≤ v ∧ v ≤ 1 then some v else none
      | none => none }

/-! ## Signal synthesis (`_generate_signals`, lines 444-582)

The reasoning strings below keep the fixed text of the source messages; the
numeric interpolations of the Python f-strings are dropped (they carry no
information beyond values already present in the record). -/

/-- The trading-signal record returned by `_generate_signals`. -/
structure TradingSignal where
  signal : String
  confidence_score : ℚ
  reasoning : List String
  technical_score : ℚ
  options_score : ℚ
  fundamental_score : ℚ
deriving DecidableEq, Repr

/-- Technical momentum scoring, lines 462-503.  Python truthiness and the
key-presence checks become `Option` matches. -/
def techScorePart (price : ℚ) (t : TechIndicators) : ℚ × List String :=
  let s0 : ℚ × List String := (0, [])
  let s1 :=
    match t.sma_50, t.sma_200 with
    | some sma50, some sma200 =>
      let a :=
        if price > sma200 then
          (s0.1 + 1, s0.2 ++ ["Bullish trend: Price above 200-day SMA"])
        else if price < sma200 then
          (s0.1 - 1, s0.2 ++ ["Bearish trend: Price below 200-day SMA"])
        else s0
      if sma50 > sma200 then
        (a.1 + 1/2, a.2 ++ ["Bullish momentum: 50-day SMA above 200-day SMA"])
      else
        (a.1 - 1/2, a.2 ++ ["Bearish momentum: 50-day SMA below 200-day SMA"])
    | _, _ => s0
  let s2 :=
    match t.rsi_14 with
    | some rsi =>
      if rsi < 30 then (s1.1 + 1, s1.2 ++ ["Oversold conditions: RSI low"])
      else if rsi > 70 then (s1.1 - 1, s1.2 ++ ["Overbought conditions: RSI high"])
      else if 40 ≤ rsi ∧ rsi ≤ 60 then (s1.1, s1.2 ++ ["Neutral RSI"])
      else s1
    | none => s1
  match t.macd_histogram with
  | some h =>
    if h > 0 then (s2.1 + 1/2, s2.2 ++ ["Positive MACD momentum"])
    else (s2.1 - 1/2, s2.2 ++ ["Negative MACD momentum"])
  | none => s2

/-- Options sentiment scoring, lines 505-524.  Reading put_call_volume_ratio
with default 1.0 is `Option.getD 1`; the guard on call_iv tests Python
truthiness (non-`None`, non-zero) before the comparison. -/
def optScorePart (m : OptionsMetricSet) : ℚ × List String :=
  if m.options_data_available then
    let pcr := m.put_call_volume_ratio.getD 1
    let a : ℚ × List String :=
      if pcr > 6/5 then (1, ["Contrarian sentiment: High put-call ratio"])
      else if pcr < 4/5 then (-1, ["Contrarian sentiment: Low put-call ratio"])
      else (0, [])
    match m.call_iv with
    | some civ =>
      if civ ≠ 0 ∧ civ > 3/10 then
        (a.1 + 1/2, a.2 ++ ["Elevated implied volatility (fear)"])
      else if civ ≠ 0 ∧ civ < 3/20 then
        (a.1 - 1/2, a.2 ++ ["Low implied volatility (complacency)"])
      else a
    | none => a
  else (0, [])

/-- Fundamental quality scoring, lines 526-548.  Each guard first tests
Python truthiness of the value. -/
def fundScorePart (f : FundMetrics) : ℚ × List String :=
  let a : ℚ × List String :=
    match f.forward_pe with
    | some pe =>
      if pe ≠ 0 ∧ 5 ≤ pe ∧ pe ≤ 30 then (1/2, ["Reasonable P/E ratio"])
      else if pe ≠ 0 ∧ pe > 30 then (-(1/2), ["High P/E ratio"])
      else (0, [])
    | none => (0, [])
  let b :=
    match f.price_to_book with
    | some pb =>
      if pb ≠ 0 ∧ pb < 3 then (a.1 + 1/2, a.2 ++ ["Reasonable P/B ratio"])
      else a
    | none => a
  match f.dividend_yield with
  | some dy =>
    if dy ≠ 0 ∧ dy > 1/50 then (b.1 + 1/2, b.2 ++ ["Attractive dividend yield"])
    else b
  | none => b

/-- Lines 553-562: map the total score to a categorical signal using the
thresholds set in `__init__` (lines 52-58): STRONG_BUY 4, BUY 2, SELL −2,
STRONG_SELL −4, first match wins. -/
def classifySignal (total : ℚ) : String :=
  if total ≥ 4 then "STRONG_BUY"
  else if total ≥ 2 then "BUY"
  else if total ≤ -4 then "STRONG_SELL"
  else if total ≤ -2 then "SELL"
  else "NEUTRAL"

/-- `_generate_signals` (normal path, lines 454-571). -/
def generateSignals (price : ℚ) (tech : TechIndicators) (fund : FundMetrics)
    (opts : OptionsMetricSet) : TradingSignal :=
  let t := techScorePart price tech
  let o := optScorePart opts
  let f := fundScorePart fund
  let total := t.1 + o.1 + f.1
  { signal := classifySignal total
    confidence_score := total
    reasoning := t.2 ++ o.2 ++ f.2
    technical_score := t.1
    options_score := o.1
    fundamental_score := f.1 }

/-- The record built by the `except` branch of `_generate_signals`
(lines 573-582). -/
def errorSignalRecord (msg : String) : TradingSignal :=
  { signal := "NEUTRAL"
    confidence_score := 0
    reasoning := [msg]
    technical_score := 0
    options_score := 0
    fundamental_score := 0 }

/-! ## Orchestrator (`get_quant_analysis`, lines 65-146, and
`_fetch_market_data`, lines 148-189) -/

/-- The dict returned by `_fetch_market_data` on success (the unused
`options_available` flag of line 184 is omitted). -/
structure MarketData where
  current_price : ℚ
  historical : List Bar
  ticker_info : FundRaw
deriving DecidableEq, Repr

/-- `_fetch_market_data` (lines 148-189): `None` when the provider raises,
when the 2-day history is empty, or when the last close is non-positive. -/
def fetchMarketData (p : ProviderData) : Option MarketData :=
  if p.raises then none
  else
    match p.recent.getLast? with
    | none => none
    | some price =>
      if price ≤ 0 then none
      else some { current_price := price, historical := p.historical, ticker_info := p.info }

/-- The `data_quality` sub-record of the result. -/
structure DataQuality where
  technical_data_complete : Bool
  fundamental_data_complete : Bool
  options_data_complete : Bool
  warnings : List String
deriving DecidableEq, Repr

/-- The analysis dict returned by `get_quant_analysis`.  `trading_signal` is
`none` for the initial `{}` placeholder. -/
structure AnalysisResult where
  ticker : String
  current_price : Option ℚ
  analysis_timestamp : String
  technical_indicators : TechIndicators
  fundamental_metrics : FundMetrics
  options_metrics : OptionsMetricSet
  trading_signal : Option TradingSignal
  data_quality : DataQuality
deriving DecidableEq, Repr

/-- Python truthiness of the dict produced by `_get_fundamental_metrics`:
that dict always carries its three keys (even when all values are `None`),
so it is always truthy at line 117. -/
def fundDictTruthy (_ : FundMetrics) : Bool := true

/-- Python truthiness of the dict produced by `_analyze_options_chain`: every
return path carries at least the key `options_data_available`, so the dict is
always non-empty, hence truthy at line 125. -/
def optionsDictTruthy (_ : OptionsMetricSet) : Bool := true

/-- `get_quant_analysis` (lines 65-146).  `ts` is the `datetime.now()`
timestamp string of line 84; `today` is the `datetime.now().date()` of
line 329 as an epoch day, threaded to the expiration filter. -/
def getQuantAnalysis (ticker : String) (ts : String) (today : Int)
    (p : ProviderData) : AnalysisResult :=
  let init : AnalysisResult :=
    { ticker := ticker.toUpper
      current_price := none
      analysis_timestamp := ts
      technical_indicators := {}
      fundamental_metrics := {}
      options_metrics := .unavailable
      trading_signal := none
      data_quality :=
        { technical_data_complete := false
          fundamental_data_complete := false
          options_data_complete := false
          warnings := [] } }
  match fetchMarketData p with
  | none =>
    { init with data_quality :=
        { init.data_quality with
            warnings := init.data_quality.warnings ++ ["Failed to fetch market data"] } }
  | some md =>
    let techStep :=
      match calcTechnicalIndicators md.historical with
      | some t => (t, true, ([] : List String))
      | none => (({} : TechIndicators), false, ["Failed to calculate technical indicators"])
    let fund := getFundamentalMetrics md.ticker_info
    let fundComplete := fundDictTruthy fund
    let opts := analyzeOptionsChain today p.expiries md.current_price
    let optsComplete := optionsDictTruthy opts
    let signal := generateSignals md.current_price techStep.1 fund opts
    { ticker := ticker.toUpper
      current_price := some md.current_price
      analysis_timestamp := ts
      technical_indicators := techStep.1
      fundamental_metrics := fund
      options_metrics := opts
      trading_signal := some signal
      data_quality :=
        { technical_data_complete := techStep.2.1
          fundamental_data_complete := fundComplete
          options_data_complete := optsComplete
          warnings := techStep.2.2 } }

/-- Erase the wall-clock timestamp from a result (for determinism statements
about everything except the clock). -/
def stripTimestamp (r : AnalysisResult) : AnalysisResult :=
  { r with analysis_timestamp := "" }

/-! ## Theorems -/

/-- Bounds of the fundamental sub-score: each rule adds 1/2 except the
high-P/E rule, which subtracts 1/2 and excludes the first P/E rule. -/
lemma fundScorePart_bounds (f : FundMetrics) :
    -(1/2 : ℚ) ≤ (fundScorePart f).1 ∧ (fundScorePart f).1 ≤ 3/2 := by
  obtain ⟨pe, pb, dy⟩ := f
  cases pe <;> cases pb <;> cases dy <;>
    simp only [fundScorePart] <;> (try split_ifs) <;> norm_num

/-- C1: for every synthesis run, the signal is determined from the total
score by first-match priority — total ≥ 4 yields STRONG_BUY, else ≥ 2 BUY,
else ≤ −4 STRONG_SELL, else ≤ −2 SELL, otherwise NEUTRAL — and the boundary
values 4, 2, −4, −2 and 1.99 classify as STRONG_BUY, BUY, STRONG_SELL, SELL
and NEUTRAL respectively. -/
theorem C1_signal_classification :
    (∀ (price : ℚ) (tech : TechIndicators) (fund : FundMetrics) (opts : OptionsMetricSet),
        (generateSignals price tech fund opts).signal =
          classifySignal (generateSignals price tech fund opts).confidence_score) ∧
    (∀ total : ℚ, 4 ≤ total → classifySignal total = "STRONG_BUY") ∧
    (∀ total : ℚ, total < 4 → 2 ≤ total → classifySignal total = "BUY") ∧
    (∀ total : ℚ, total < 2 → total ≤ -4 → classifySignal total = "STRONG_SELL") ∧
    (∀ total : ℚ, total < 2 → -4 < total → total ≤ -2 → classifySignal total = "SELL") ∧
    (∀ total : ℚ, total < 2 → -2 < total → classifySignal total = "NEUTRAL") ∧
    classifySignal 4 = "STRONG_BUY" ∧ classifySignal 2 = "BUY" ∧
    classifySignal (-4) = "STRONG_SELL" ∧ classifySignal (-2) = "SELL" ∧
    classifySignal (199/100) = "NEUTRAL" := by
  refine ⟨fun _ _ _ _ => rfl, ?_, ?_, ?_, ?_, ?_, ?_, ?_, ?_, ?_, ?_⟩ <;>
    first
    | (intro total h₁
       unfold classifySignal
       split_ifs <;> first | rfl | (exfalso; simp only [ge_iff_le] at *; linarith))
    | (intro total h₁ h₂
       unfold classifySignal
       split_ifs <;> first | rfl | (exfalso; simp only [ge_iff_le] at *; linarith))
    | (intro total h₁ h₂ h₃
       unfold classifySignal
       split_ifs <;> first | rfl | (exfalso; simp only [ge_iff_le] at *; linarith))
    | (unfold classifySignal; norm_num)

/-- C1 witness: applying the classification at concrete totals. -/
theorem C1_signal_classification_witness :
    classifySignal 5 = "STRONG_BUY" ∧ classifySignal 3 = "BUY" ∧
    classifySignal (-5) = "STRONG_SELL" ∧ classifySignal (-3) = "SELL" ∧
    classifySignal 0 = "NEUTRAL" :=
  ⟨C1_signal_classification.2.1 5 (by norm_num),
   C1_signal_classification.2.2.1 3 (by norm_num) (by norm_num),
   C1_signal_classification.2.2.2.1 (-5) (by norm_num) (by norm_num),
   C1_signal_classification.2.2.2.2.1 (-3) (by norm_num) (by norm_num) (by norm_num),
   C1_signal_classification.2.2.2.2.2.1 0 (by norm_num) (by norm_num)⟩

/-- C2: every trading-signal record returned by the synthesizer — including
the record its exception handler produces — has confidence_score equal to
technical_score + options_score + fundamental_score exactly. -/
theorem C2_confidence_is_sum_of_subscores :
    (∀ (price : ℚ) (tech : TechIndicators) (fund : FundMetrics) (opts : OptionsMetricSet),
        (generateSignals price tech fund opts).confidence_score =
          (generateSignals price tech fund opts).technical_score +
          (generateSignals price tech fund opts).options_score +
          (generateSignals price tech fund opts).fundamental_score) ∧
    (∀ msg : String,
        (errorSignalRecord msg).confidence_score =
          (errorSignalRecord msg).technical_score +
          (errorSignalRecord msg).options_score +
          (errorSignalRecord msg).fundamental_score) :=
  ⟨fun _ _ _ _ => rfl, fun msg => by simp [errorSignalRecord]⟩

/-- C9 counterexample: with forward_pe = 31 (and the other fundamental
fields null) the fundamental sub-score is −1/2, outside the claimed range
0..1.5. -/
theorem C9_counterexample_fund_score_negative :
    (generateSignals 0 {} { forward_pe := some 31 } .unavailable).fundamental_score
        = -(1/2) ∧
    ¬ (0 ≤ (generateSignals 0 {} { forward_pe := some 31 }
        .unavailable).fundamental_score) := by
  constructor <;> norm_num [generateSignals, fundScorePart]

/-- C9 (amended): for every input to the signal synthesizer, the fundamental
sub-score lies in the range −0.5..1.5 (the high-P/E rule can contribute
−0.5; all other fundamental rules only add). -/
theorem C9_fund_score_range :
    ∀ (price : ℚ) (tech : TechIndicators) (fund : FundMetrics) (opts : OptionsMetricSet),
      -(1/2 : ℚ) ≤ (generateSignals price tech fund opts).fundamental_score ∧
      (generateSignals price tech fund opts).fundamental_score ≤ 3/2 :=
  fun _ _ fund _ => fundScorePart_bounds fund

/-- Row at strike 100 whose implied-volatility cell is NaN, for the C4
counterexample. -/
def c4nanCall : OptionRow :=
  { strike := 100, volume := some 10, openInterest := some 5, impliedVolatility := none }

/-- Put row at strike 100 with implied volatility 1, for the C4
counterexample. -/
def c4nanPut : OptionRow :=
  { strike := 100, volume := some 20, openInterest := some 7, impliedVolatility := some 1 }

/-- One-strike chain whose ATM call implied volatility is NaN. -/
def c4nanChain : OptionChain := { calls := [c4nanCall], puts := [c4nanPut] }

/-- Expected metric record for `c4nanChain`: call_iv reported as null, and
the Greeks volatility NaN — not the 0.25 fallback. -/
def c4nanResult : OptionsMetricSet :=
  { options_data_available := true
    nearest_expiry := some 7
    atm_strike := some 100
    call_iv := none
    put_iv := some 1
    greeks_sigma := some none
    put_call_volume_ratio := some 2
    put_call_oi_ratio := some (7/5)
    atm_total_volume := some 30
    atm_total_oi := some 12 }

/-- C4 counterexample: a NaN ATM call implied volatility is a missing value
(reported as null in call_iv), yet the volatility used for the Greeks is not
the 0.25 fallback — NaN is truthy in Python, so line 383 computes the
average and sigma is NaN.  This refutes the claim that the fallback is used
whenever either implied volatility is missing. -/
theorem C4_counterexample_nan_iv_no_fallback :
    analyzeChainData 101 7 c4nanChain = some c4nanResult ∧
    c4nanResult.call_iv = none ∧
    c4nanResult.greeks_sigma = some none ∧
    c4nanResult.greeks_sigma ≠ some (some (1/4 : ℚ)) := by
  refine ⟨?_, rfl, rfl, by simp [c4nanResult]⟩
  norm_num [analyzeChainData, atmStrikeOf, allStrikes, uniqueFirst, argminAbs,
    findRow, ivRead, greeksSigma, pyTruthy, pyAvg, pyAdd, totalVolume, totalOI,
    pcRatio, c4nanChain, c4nanCall, c4nanPut, c4nanResult]

/-- C4 (amended): when both ATM rows are present, the volatility used for
the Greeks computation is the average of the call and put implied
volatilities when both are non-zero numbers; it is the 0.25 fallback exactly
when either side is falsy, i.e. zero (an absent column would be read as the
0 default); a NaN implied volatility is truthy, so with a NaN on either side
and no zero the volatility used is NaN, not the fallback; the reported
call_iv and put_iv fields remain the values read from the chain (NaN
reported as null), never the fallback. -/
theorem C4_greeks_sigma_zero_fallback :
    ∀ (price : ℚ) (day : Int) (chain : OptionChain) (atm : ℚ)
      (cr pr : OptionRow) (m : OptionsMetricSet),
      atmStrikeOf price chain = some atm →
      findRow chain.calls atm = some cr →
      findRow chain.puts atm = some pr →
      analyzeChainData price day chain = some m →
      m.call_iv = ivRead cr ∧
      m.put_iv = ivRead pr ∧
      m.greeks_sigma = some (greeksSigma (ivRead cr) (ivRead pr)) ∧
      (∀ a b : ℚ, a ≠ 0 → b ≠ 0 →
        greeksSigma (some a) (some b) = some ((a + b) / 2)) ∧
      (∀ civ piv : Option ℚ, pyTruthy civ = false ∨ pyTruthy piv = false →
        greeksSigma civ piv = some (1/4)) ∧
      (∀ cell : Option ℚ, pyTruthy cell = false ↔ cell = some 0) ∧
      (∀ piv : Option ℚ, pyTruthy piv = true → greeksSigma none piv = none) ∧
      (∀ civ : Option ℚ, pyTruthy civ = true → greeksSigma civ none = none) := by
  intro price day chain atm cr pr m hatm hc hp hm
  unfold analyzeChainData at hm
  rw [hatm] at hm
  dsimp only [] at hm
  rw [hc, hp] at hm
  dsimp only [] at hm
  rw [Option.some_inj] at hm
  subst hm
  refine ⟨rfl, rfl, rfl, ?_, ?_, ?_, ?_, ?_⟩
  · intro a b ha hb
    simp [greeksSigma, pyTruthy, pyAvg, ha, hb]
  · intro civ piv h
    cases h with
    | inl h0 => simp [greeksSigma, h0]
    | inr h0 => simp [greeksSigma, h0]
  · intro cell
    cases cell with
    | none => simp [pyTruthy]
    | some q => simp [pyTruthy]
  · intro piv h
    cases piv with
    | none => simp [greeksSigma, pyTruthy, pyAvg]
    | some q =>
      have hq : q ≠ 0 := by simpa [pyTruthy] using h
      simp [greeksSigma, pyTruthy, pyAvg, hq]
  · intro civ h
    cases civ with
    | none => simp [greeksSigma, pyTruthy, pyAvg]
    | some q =>
      have hq : q ≠ 0 := by simpa [pyTruthy] using h
      simp [greeksSigma, pyTruthy, pyAvg, hq]

/-- Concrete ATM call row for the C4 witness (implied volatility cell 0). -/
def c4call : OptionRow :=
  { strike := 100, volume := some 10, openInterest := some 5, impliedVolatility := some 0 }

/-- Concrete ATM put row for the C4 witness (implied volatility 1). -/
def c4put : OptionRow :=
  { strike := 100, volume := some 20, openInterest := some 7, impliedVolatility := some 1 }

/-- Concrete one-strike chain for the C4 witness. -/
def c4chain : OptionChain := { calls := [c4call], puts := [c4put] }

/-- Expected metric record for the C4 witness chain. -/
def c4result : OptionsMetricSet :=
  { options_data_available := true
    nearest_expiry := some 7
    atm_strike := some 100
    call_iv := some 0
    put_iv := some 1
    greeks_sigma := some (some (1/4))
    put_call_volume_ratio := some 2
    put_call_oi_ratio := some (7/5)
    atm_total_volume := some 30
    atm_total_oi := some 12 }

/-- C4 witness: on a chain whose ATM call has a zero implied-volatility
cell, the Greeks volatility is the 0.25 fallback while call_iv/put_iv stay
as read. -/
theorem C4_greeks_sigma_zero_fallback_witness :
    analyzeChainData 101 7 c4chain = some c4result ∧
    c4result.call_iv = ivRead c4call ∧
    c4result.put_iv = ivRead c4put ∧
    c4result.greeks_sigma = some (greeksSigma (ivRead c4call) (ivRead c4put)) ∧
    greeksSigma (ivRead c4call) (ivRead c4put) = some (1/4) := by
  have heval : analyzeChainData 101 7 c4chain = some c4result := by
    norm_num [analyzeChainData, atmStrikeOf, allStrikes, uniqueFirst, argminAbs,
      findRow, ivRead, greeksSigma, pyTruthy, pyAvg, pyAdd, totalVolume, totalOI,
      pcRatio, c4chain, c4call, c4put, c4result]
  have h := C4_greeks_sigma_zero_fallback 101 7 c4chain 100 c4call c4put c4result
    (by norm_num [atmStrikeOf, allStrikes, uniqueFirst, argminAbs, c4chain, c4call, c4put])
    (by norm_num [findRow, c4chain, c4call])
    (by norm_num [findRow, c4chain, c4put])
    heval
  refine ⟨heval, h.1, h.2.1, h.2.2.1, ?_⟩
  exact h.2.2.2.2.1 (ivRead c4call) (ivRead c4put)
    (Or.inl (by norm_num [ivRead, c4call, pyTruthy]))

/-- C5: the put-call volume ratio is total put volume over total call volume
when the call total is positive and 0 when the call total is 0, for any put
volume (the function is total into ℚ, so no error, infinity or NaN can
arise); the open-interest ratio satisfies the same property, and whenever
`_analyze_options_chain` reports these ratios they are exactly these
quotients of the whole-chain totals. -/
theorem C5_put_call_ratio_definition :
    (∀ put call : ℚ, 0 < call → pcRatio put call = put / call) ∧
    (∀ put : ℚ, pcRatio put 0 = 0) ∧
    pcRatio 500 0 = 0 ∧
    (∀ (price : ℚ) (day : Int) (chain : OptionChain) (m : OptionsMetricSet) (r : ℚ),
      analyzeChainData price day chain = some m →
      m.put_call_volume_ratio = some r →
      r = pcRatio (totalVolume chain.puts) (totalVolume chain.calls)) ∧
    (∀ (price : ℚ) (day : Int) (chain : OptionChain) (m : OptionsMetricSet) (r : ℚ),
      analyzeChainData price day chain = some m →
      m.put_call_oi_ratio = some r →
      r = pcRatio (totalOI chain.puts) (totalOI chain.calls)) := by
  refine ⟨?_, ?_, ?_, ?_, ?_⟩
  · intro put call h
    unfold pcRatio
    rw [if_pos h]
  · intro put
    unfold pcRatio
    rw [if_neg (lt_irrefl 0)]
  · unfold pcRatio
    rw [if_neg (lt_irrefl 0)]
  · intro price day chain m r hm hr
    unfold analyzeChainData at hm
    rcases hatm : atmStrikeOf price chain with _ | atm <;> rw [hatm] at hm
    · exact absurd hm (by simp)
    · dsimp only [] at hm
      rcases hc : findRow chain.calls atm with _ | cr <;>
        rcases hp : findRow chain.puts atm with _ | pr <;>
          rw [hc, hp] at hm <;> dsimp only [] at hm <;>
            rw [Option.some_inj] at hm <;> subst hm <;>
              simp only [] at hr
      · exact absurd hr (by simp)
      · exact absurd hr (by simp)
      · exact absurd hr (by simp)
      · rw [Option.some_inj] at hr
        exact hr.symm
  · intro price day chain m r hm hr
    unfold analyzeChainData at hm
    rcases hatm : atmStrikeOf price chain with _ | atm <;> rw [hatm] at hm
    · exact absurd hm (by simp)
    · dsimp only [] at hm
      rcases hc : findRow chain.calls atm with _ | cr <;>
        rcases hp : findRow chain.puts atm with _ | pr <;>
          rw [hc, hp] at hm <;> dsimp only [] at hm <;>
            rw [Option.some_inj] at hm <;> subst hm <;>
              simp only [] at hr
      · exact absurd hr (by simp)
      · exact absurd hr (by simp)
      · exact absurd hr (by simp)
      · rw [Option.some_inj] at hr
        exact hr.symm

/-- C5 witness: the ratio at positive call volume and at zero call volume. -/
theorem C5_put_call_ratio_definition_witness :
    pcRatio 30 20 = 30 / 20 ∧ pcRatio 7 0 = 0 :=
  ⟨C5_put_call_ratio_definition.1 30 20 (by norm_num),
   C5_put_call_ratio_definition.2.1 7⟩

/-- C6: the indicator set is present iff the history has at least 50 bars,
and with exactly 49 bars the computation returns the not-computable value,
the result has technical_data_complete = false, and a warning (not an
error) is recorded. -/
theorem C6_technical_presence_iff_50_bars :
    (∀ bars : List Bar, (calcTechnicalIndicators bars).isSome ↔ 50 ≤ bars.length) ∧
    (∀ (ticker ts : String) (today : Int) (p : ProviderData) (md : MarketData),
      fetchMarketData p = some md → md.historical.length = 49 →
      calcTechnicalIndicators md.historical = none ∧
      (getQuantAnalysis ticker ts today p).data_quality.technical_data_complete = false ∧
      "Failed to calculate technical indicators" ∈
        (getQuantAnalysis ticker ts today p).data_quality.warnings) := by
  constructor
  · intro bars
    unfold calcTechnicalIndicators
    by_cases h : bars.length < 50
    · rw [if_pos h]
      simp
      omega
    · rw [if_neg h]
      have hlen : ¬ ((closesOf bars).length < 50 ∨ (50 : Nat) = 0) := by
        simp only [closesOf, List.length_map]
        omega
      dsimp only []
      split_ifs with hempty
      · exfalso
        have hproj := congrArg TechIndicators.sma_50 hempty
        simp only [TechIndicators.empty] at hproj
        unfold smaAt at hproj
        rw [if_neg hlen] at hproj
        exact absurd hproj (by simp)
      · simp
        omega
  · intro ticker ts today p md hf h49
    have hnone : calcTechnicalIndicators md.historical = none := by
      unfold calcTechnicalIndicators
      rw [if_pos (by omega)]
    refine ⟨hnone, ?_, ?_⟩ <;>
      simp [getQuantAnalysis, hf, hnone]

/-- Bar used by the C6 witness history. -/
def c6bar : Bar := { high := 1, low := 1, close := 1 }

/-- Provider responses with a 49-bar history for the C6 witness. -/
def c6provider : ProviderData :=
  { raises := false
    recent := [1]
    historical := List.replicate 49 c6bar
    info := { forwardPE := none, priceToBook := none, dividendYield := none }
    expiries := [] }

/-- The market-data record `_fetch_market_data` produces for `c6provider`. -/
def c6md : MarketData :=
  { current_price := 1
    historical := List.replicate 49 c6bar
    ticker_info := { forwardPE := none, priceToBook := none, dividendYield := none } }

/-- C6 witness: with exactly 49 bars the indicators are not computable and
the result records the warning with technical_data_complete = false. -/
theorem C6_technical_presence_iff_50_bars_witness :
    calcTechnicalIndicators c6md.historical = none ∧
    (getQuantAnalysis "aapl" "2024-01-02 09:30:00" 19724
        c6provider).data_quality.technical_data_complete = false ∧
    "Failed to calculate technical indicators" ∈
      (getQuantAnalysis "aapl" "2024-01-02 09:30:00" 19724
        c6provider).data_quality.warnings :=
  C6_technical_presence_iff_50_bars.2 "aapl" "2024-01-02 09:30:00" 19724
    c6provider c6md
    (by norm_num [fetchMarketData, c6provider, c6md])
    (by simp [c6md])

/-- The three conditions under which `_fetch_market_data` fails: a provider
exception, an empty 2-day history, or a non-positive last close. -/
def fetchFails (p : ProviderData) : Prop :=
  p.raises = true ∨ p.recent.getLast? = none ∨
    ∃ c, p.recent.getLast? = some c ∧ c ≤ 0

/-- C7: the market-data fetch fails exactly on a provider exception, a
missing current bar, or a non-positive current price, and in that case the
analysis returns (without raising) a result with null current_price, empty
technical/fundamental/options metric sets, and a warning containing
"Failed to fetch market data". -/
theorem C7_minimal_result_on_fetch_failure :
    (∀ p : ProviderData, fetchMarketData p = none ↔ fetchFails p) ∧
    (∀ (ticker ts : String) (today : Int) (p : ProviderData),
      fetchMarketData p = none →
      (getQuantAnalysis ticker ts today p).current_price = none ∧
      (getQuantAnalysis ticker ts today p).technical_indicators = TechIndicators.empty ∧
      (getQuantAnalysis ticker ts today p).fundamental_metrics = ({} : FundMetrics) ∧
      (getQuantAnalysis ticker ts today p).options_metrics = OptionsMetricSet.unavailable ∧
      "Failed to fetch market data" ∈
        (getQuantAnalysis ticker ts today p).data_quality.warnings) := by
  constructor
  · intro p
    unfold fetchMarketData fetchFails
    by_cases hr : p.raises = true
    · rw [if_pos hr]
      simp [hr]
    · rw [if_neg hr]
      rcases hl : p.recent.getLast? with _ | c
      · simp [hr, hl]
      · dsimp only []
        by_cases hc : c ≤ 0
        · rw [if_pos hc]
          simp [hr, hl, hc]
        · rw [if_neg hc]
          simp [hr, hl, hc]
  · intro ticker ts today p h
    refine ⟨?_, ?_, ?_, ?_, ?_⟩ <;>
      simp [getQuantAnalysis, h, TechIndicators.empty]

/-- Provider responses whose fetch raises, for the C7 witness. -/
def c7provider : ProviderData :=
  { raises := true
    recent := [5]
    historical := []
    info := { forwardPE := none, priceToBook := none, dividendYield := none }
    expiries := [] }

/-- C7 witness: a raising provider yields the minimal result with the
fetch-failure warning. -/
theorem C7_minimal_result_on_fetch_failure_witness :
    (getQuantAnalysis "msft" "2024-01-02 09:30:00" 19724 c7provider).current_price = none ∧
    (getQuantAnalysis "msft" "2024-01-02 09:30:00" 19724
        c7provider).technical_indicators = TechIndicators.empty ∧
    (getQuantAnalysis "msft" "2024-01-02 09:30:00" 19724
        c7provider).fundamental_metrics = ({} : FundMetrics) ∧
    (getQuantAnalysis "msft" "2024-01-02 09:30:00" 19724
        c7provider).options_metrics = OptionsMetricSet.unavailable ∧
    "Failed to fetch market data" ∈
      (getQuantAnalysis "msft" "2024-01-02 09:30:00" 19724
        c7provider).data_quality.warnings :=
  C7_minimal_result_on_fetch_failure.2 "msft" "2024-01-02 09:30:00" 19724 c7provider
    (by simp [fetchMarketData, c7provider])

/-- Every successful run of `_analyze_options_chain` past the ATM step
reports options_data_available = true. -/
lemma analyzeChainData_available :
    ∀ (price : ℚ) (day : Int) (chain : OptionChain) (m : OptionsMetricSet),
      analyzeChainData price day chain = some m →
      m.options_data_available = true := by
  intro price day chain m hm
  unfold analyzeChainData at hm
  rcases hatm : atmStrikeOf price chain with _ | atm <;> rw [hatm] at hm
  · exact absurd hm (by simp)
  · dsimp only [] at hm
    rcases hc : findRow chain.calls atm with _ | cr <;>
      rcases hp : findRow chain.puts atm with _ | pr <;>
        rw [hc, hp] at hm <;> dsimp only [] at hm <;>
          rw [Option.some_inj] at hm <;> subst hm <;> rfl

/-- C10: `_analyze_options_chain` always returns a mapping — each failure
path yields the record with options_data_available = false rather than
nothing — so whenever the market-data fetch succeeds the assembled result
has options_data_complete = true, even when options_data_available is
false. -/
theorem C10_options_complete_even_when_unavailable :
    (∀ (ticker ts : String) (today : Int) (p : ProviderData) (md : MarketData),
      fetchMarketData p = some md →
      (getQuantAnalysis ticker ts today p).data_quality.options_data_complete = true) ∧
    (∀ (today : Int) (price : ℚ),
      analyzeOptionsChain today [] price = OptionsMetricSet.unavailable) ∧
    (∀ (today : Int) (exps : List Expiry) (price : ℚ),
      analyzeOptionsChain today exps price = OptionsMetricSet.unavailable ∨
      (analyzeOptionsChain today exps price).options_data_available = true) := by
  refine ⟨?_, ?_, ?_⟩
  · intro ticker ts today p md hf
    simp [getQuantAnalysis, hf, optionsDictTruthy]
  · intro today price
    rfl
  · intro today exps price
    unfold analyzeOptionsChain
    split
    · exact Or.inl rfl
    · split
      · exact Or.inl rfl
      · split
        · exact Or.inl rfl
        · next m hm => exact Or.inr (analyzeChainData_available _ _ _ _ hm)

/-- Provider responses with a successful fetch and no option expirations,
for the C10 witness. -/
def c10provider : ProviderData :=
  { raises := false
    recent := [2]
    historical := []
    info := { forwardPE := none, priceToBook := none, dividendYield := none }
    expiries := [] }

/-- The market-data record `_fetch_market_data` produces for `c10provider`. -/
def c10md : MarketData :=
  { current_price := 2
    historical := []
    ticker_info := { forwardPE := none, priceToBook := none, dividendYield := none } }

/-- C10 witness: with no expirations at all, options_data_available is false
yet options_data_complete is still true. -/
theorem C10_options_complete_even_when_unavailable_witness :
    (getQuantAnalysis "googl" "2024-01-02 09:30:00" 19724
        c10provider).data_quality.options_data_complete = true ∧
    (getQuantAnalysis "googl" "2024-01-02 09:30:00" 19724
        c10provider).options_metrics.options_data_available = false :=
  ⟨C10_options_complete_even_when_unavailable.1 "googl" "2024-01-02 09:30:00" 19724
      c10provider c10md (by norm_num [fetchMarketData, c10provider, c10md]),
   by norm_num [getQuantAnalysis, fetchMarketData, c10provider, analyzeOptionsChain,
        validExpiries, sortByDay, OptionsMetricSet.unavailable]⟩

/-- Provider responses used by the C3 counterexample. -/
def c3provider : ProviderData :=
  { raises := true
    recent := []
    historical := []
    info := { forwardPE := none, priceToBook := none, dividendYield := none }
    expiries := [] }

/-- C3 counterexample: two calls with byte-identical provider responses and
unchanged configuration but made one second apart return different
AnalysisResult values — the wall-clock timestamp is embedded in the result,
so the operation is not a pure function of the provider inputs alone. -/
theorem C3_counterexample_timestamp_in_result :
    ¬ (getQuantAnalysis "aapl" "2024-01-02 09:30:00" 19724 c3provider =
       getQuantAnalysis "aapl" "2024-01-02 09:30:01" 19724 c3provider) := by
  intro h
  exact absurd (congrArg AnalysisResult.analysis_timestamp h) (by decide)

/-- C3 (amended): two calls with byte-identical provider responses,
unchanged configuration, and the same current date yield results that agree
on every field except analysis_timestamp, which records the wall-clock time
of each call; apart from the clock, the operation is a pure function of
its inputs. -/
theorem C3_pure_function_of_inputs_and_clock :
    ∀ (ticker ts1 ts2 : String) (today : Int) (p : ProviderData),
      stripTimestamp (getQuantAnalysis ticker ts1 today p) =
        stripTimestamp (getQuantAnalysis ticker ts2 today p) := by
  intro ticker ts1 ts2 today p
  unfold getQuantAnalysis stripTimestamp
  rcases hf : fetchMarketData p with _ | md <;> rfl

/-- One strike row of the C8 example chain (only the strike matters for ATM
selection). -/
def c8row (k : ℚ) : OptionRow :=
  { strike := k, volume := none, openInterest := none, impliedVolatility := none }

/-- The ATM example of the specification: strikes 95, 100, 105 on both sides. -/
def c8chain : OptionChain :=
  { calls := [c8row 95, c8row 100, c8row 105]
    puts := [c8row 95, c8row 100, c8row 105] }

/-- Specification of the first-minimum fold used by the ATM selection: the
fold either keeps the seed (which then weakly minimizes), or lands on a list
element that strictly improves on the seed, strictly beats everything before
it, and weakly beats everything after it. -/
lemma amFold_spec (p : ℚ) :
    ∀ (xs : List ℚ) (x : ℚ),
      (xs.foldl (fun best s => if |s - p| < |best - p| then s else best) x = x ∧
        ∀ y ∈ xs, |x - p| ≤ |y - p|) ∨
      (∃ l1 l2,
        xs = l1 ++ xs.foldl (fun best s => if |s - p| < |best - p| then s else best) x :: l2 ∧
        |xs.foldl (fun best s => if |s - p| < |best - p| then s else best) x - p| < |x - p| ∧
        (∀ y ∈ l1,
          |xs.foldl (fun best s => if |s - p| < |best - p| then s else best) x - p| < |y - p|) ∧
        (∀ y ∈ l2,
          |xs.foldl (fun best s => if |s - p| < |best - p| then s else best) x - p| ≤ |y - p|)) := by
  intro xs
  induction xs with
  | nil =>
    intro x
    left
    exact ⟨rfl, by simp⟩
  | cons s rest ih =>
    intro x
    rw [List.foldl_cons]
    by_cases hc : |s - p| < |x - p|
    · rw [if_pos hc]
      rcases ih s with ⟨heq, hall⟩ | ⟨l1, l2, heq, hlt, h1, h2⟩
      · right
        refine ⟨[], rest, by simp [heq], by rw [heq]; exact hc, by simp, ?_⟩
        intro y hy
        rw [heq]
        exact hall y hy
      · right
        refine ⟨s :: l1, l2, ?_, lt_trans hlt hc, ?_, h2⟩
        · conv_lhs => rw [heq]
          rfl
        · intro y hy
          rcases List.mem_cons.mp hy with h | h
          · subst h; exact hlt
          · exact h1 y h
    · rw [if_neg hc]
      have hxs : |x - p| ≤ |s - p| := le_of_not_lt hc
      rcases ih x with ⟨heq, hall⟩ | ⟨l1, l2, heq, hlt, h1, h2⟩
      · left
        refine ⟨heq, ?_⟩
        intro y hy
        rcases List.mem_cons.mp hy with h | h
        · subst h; exact hxs
        · exact hall y h
      · right
        refine ⟨s :: l1, l2, ?_, hlt, ?_, h2⟩
        · conv_lhs => rw [heq]
          rfl
        · intro y hy
          rcases List.mem_cons.mp hy with h | h
          · subst h; exact lt_of_lt_of_le hlt hxs
          · exact h1 y h

/-- C8: the selected ATM strike is an element of the deduplicated union of
call and put strikes minimizing absolute distance to the current price, with
ties resolved to the first such element in the iteration order of the union
(everything before it in the union is strictly farther away); in particular
with strikes 95, 100, 105 and spot 101 it is 100. -/
theorem C8_atm_strike_first_minimum :
    (∀ (price : ℚ) (chain : OptionChain) (atm : ℚ),
      atmStrikeOf price chain = some atm →
      ∃ l1 l2, allStrikes chain = l1 ++ atm :: l2 ∧
        (∀ y ∈ l1, |atm - price| < |y - price|) ∧
        (∀ y ∈ allStrikes chain, |atm - price| ≤ |y - price|)) ∧
    atmStrikeOf 101 c8chain = some 100 := by
  constructor
  · intro price chain atm h
    unfold atmStrikeOf argminAbs at h
    rcases has : allStrikes chain with _ | ⟨x, xs⟩ <;> rw [has] at h
    · exact absurd h (by simp)
    · dsimp only [] at h
      have hfold :
          xs.foldl (fun best s => if |s - price| < |best - price| then s else best) x = atm :=
        Option.some_inj.mp h
      rcases amFold_spec price xs x with ⟨heq, hall⟩ | ⟨l1, l2, heq, hlt, h1, h2⟩
      · have hx : atm = x := by rw [← hfold, heq]
        subst hx
        refine ⟨[], xs, by simp, by simp, ?_⟩
        intro y hy
        rcases List.mem_cons.mp hy with hh | hh
        · subst hh; exact le_refl _
        · exact hall y hh
      · rw [hfold] at heq hlt h1 h2
        refine ⟨x :: l1, l2, by simp [heq], ?_, ?_⟩
        · intro y hy
          rcases List.mem_cons.mp hy with hh | hh
          · subst hh; exact hlt
          · exact h1 y hh
        · intro y hy
          rcases List.mem_cons.mp hy with hh | hh
          · subst hh; exact le_of_lt hlt
          · rw [heq] at hh
            rcases List.mem_append.mp hh with hh2 | hh2
            · exact le_of_lt (h1 y hh2)
            · rcases List.mem_cons.mp hh2 with hh3 | hh3
              · subst hh3; exact le_refl _
              · exact h2 y hh3
  · norm_num [atmStrikeOf, allStrikes, uniqueFirst, argminAbs, c8chain, c8row]

/-- C8 witness: applying the first-minimum property to the example chain at
spot 101 shows the selected strike 100 is weakly closer than strike 95. -/
theorem C8_atm_strike_first_minimum_witness :
    atmStrikeOf 101 c8chain = some 100 ∧
    |(100 : ℚ) - 101| ≤ |(95 : ℚ) - 101| := by
  have h := C8_atm_strike_first_minimum.1 101 c8chain 100 C8_atm_strike_first_minimum.2
  obtain ⟨l1, l2, heq, hbefore, hmin⟩ := h
  refine ⟨C8_atm_strike_first_minimum.2, ?_⟩
  exact hmin 95 (by norm_num [allStrikes, uniqueFirst, c8chain, c8row])

end QuantAnalyzer
